import Mathlib

/-!
Shallow embedding of `control/planktoscopehat/planktoscope/light.py`:
the LM36011 LED driver wrapper (`i2c_led`) and the message-processing
controller (`LightProcess`).

Modelling conventions:
* Hardware and message-bus side effects are recorded as an explicit
  `Event` trace (I2C register reads/writes, GPIO pin operations, MQTT
  publications).  An I2C register transaction (an `i2cWrite` or
  `i2cRead` event) is a "chip operation"; `gpioOutput` is the
  channel-select line.
* The mutable attributes of the `i2c_led` instance become the record
  `LedState`; methods become functions `LedState → ... → LedState × ...`.
  Byte values arriving from the bus (the response of a register read)
  are passed in as explicit arguments, since they come from the
  environment.
* The Python expression `int(current * 0.085)` is IEEE-754 double arithmetic: the
  literal `0.085` denotes the double closest to 17/200, whose exact
  value is `6124895493223875 / 2^56`.  For every natural milliamp
  argument the Python expression equals
  `current * 6124895493223875 / 2^56` in exact natural arithmetic
  (the rounding of the double product never crosses an integer
  boundary for arguments up to 1500, where the register value caps),
  which is how `set_flash_current` is embedded below.
* Milliamp payloads of inbound messages are modelled as naturals.
-/

set_option autoImplicit false
set_option maxRecDepth 8000

/-- Trace events: every externally visible side effect of the light module. -/
inductive Event where
  /-- Transaction `bus.write_byte_data(DEVICE_ADDRESS, register, data)`. -/
  | i2cWrite (register : Nat) (data : Nat)
  /-- Transaction `bus.read_byte_data(DEVICE_ADDRESS, register)`. -/
  | i2cRead (register : Nat)
  /-- Call `RPi.GPIO.output(pin, level)`. -/
  | gpioOutput (pin : Nat) (high : Bool)
  /-- Call `RPi.GPIO.cleanup()`. -/
  | gpioCleanup
  /-- Call `client.publish(topic, payload)`. -/
  | publish (topic : String) (payload : String)
  /-- Call `light_client.shutdown()`. -/
  | clientShutdown
  deriving DecidableEq, Repr

namespace i2c_led

/-- Register addresses of the LM36011 (`i2c_led.Register`). -/
inductive Register where
  | enable
  | configuration
  | flash
  | torch
  | flags
  | id_reset
  deriving DecidableEq, Repr

/-- Numeric addresses assigned by the `enum.IntEnum`. -/
def Register.toNat : Register → Nat
  | .enable => 0x01
  | .configuration => 0x02
  | .flash => 0x03
  | .torch => 0x04
  | .flags => 0x05
  | .id_reset => 0x06

/-- Constant `DEVICE_ADDRESS = 0x64`. -/
def DEVICE_ADDRESS : Nat := 0x64

/-- Constant `DEFAULT_CURRENT = 10`. -/
def DEFAULT_CURRENT : Nat := 10

/-- Constant `LED_selectPin = 18`. -/
def LED_selectPin : Nat := 18

/-- The mutable attributes of an `i2c_led` instance: the six fault-flag
booleans and the tracked on/off flag `self.on`. -/
structure LedState where
  VLED_short : Bool
  thermal_scale : Bool
  thermal_shutdown : Bool
  UVLO : Bool
  flash_timeout : Bool
  IVFM : Bool
  «on» : Bool
  deriving DecidableEq, Repr

/-- Attribute values established by `i2c_led.__init__`: every flag is
initialised to `False` and `self.on = False`.  (The flag-clearing dance
in the constructor re-establishes all-`False` flags, and nothing later in
`__init__` touches `self.on`.) -/
def initState : LedState :=
  { VLED_short := false
    thermal_scale := false
    thermal_shutdown := false
    UVLO := false
    flash_timeout := false
    IVFM := false
    «on» := false }

/-- Method `output_to_led1`: drive the select pin high. -/
def output_to_led1 : List Event :=
  [Event.gpioOutput LED_selectPin true]

/-- Method `get_state`: returns `self.on`. -/
def get_state (s : LedState) : Bool :=
  s.on

/-- Method `force_reset`: write `0b10000000` to the id/reset register. -/
def force_reset : List Event :=
  [Event.i2cWrite Register.id_reset.toNat 0b10000000]

/-- Method `get_id`: read the id/reset register and keep the low 6 bits.
The byte delivered by the bus is the argument `b`. -/
def get_id (b : Nat) : Nat × List Event :=
  (b &&& 0b111111, [Event.i2cRead Register.id_reset.toNat])

/-- Method `get_flags`: read the flags register (the byte delivered by the bus
is the argument `flags`), decode each fault bit with `bool(flags & mask)`,
store the decoded booleans in the instance attributes, and return the raw
byte. -/
def get_flags (s : LedState) (flags : Nat) : LedState × Nat × List Event :=
  ({ s with
      flash_timeout := decide (flags &&& 0b1 ≠ 0)
      UVLO := decide (flags &&& 0b10 ≠ 0)
      thermal_shutdown := decide (flags &&& 0b100 ≠ 0)
      thermal_scale := decide (flags &&& 0b1000 ≠ 0)
      VLED_short := decide (flags &&& 0b100000 ≠ 0)
      IVFM := decide (flags &&& 0b1000000 ≠ 0) },
    flags,
    [Event.i2cRead Register.flags.toNat])

/-- Numerator of the exact value of the IEEE-754 double literal `0.085`. -/
def coeffNum : Nat := 6124895493223875

/-- Denominator (`2^56`) of the exact value of the double literal `0.085`. -/
def coeffDen : Nat := 72057594037927936

/-- Method `set_flash_current`: `value = int(current * 0.085)` — exact floor of
the milliamp argument times the double `0.085` (see the module comment) —
then one write of `value` to the flash register. -/
def set_flash_current (current : Nat) : Nat × List Event :=
  let value := current * coeffNum / coeffDen
  (value, [Event.i2cWrite Register.flash.toNat value])

end i2c_led

namespace LightProcess

/-- Payload of the `settings` field of an inbound message. -/
structure Settings where
  current : Option Nat
  deriving DecidableEq, Repr

/-- An inbound MQTT payload, as far as `treat_message` inspects it:
an optional `action` string and an optional `settings` object. -/
structure Message where
  action : Option String
  settings : Option Settings
  deriving DecidableEq, Repr

/-- Reply published at startup. -/
def readyReply : String := "\x7b\"status\":\"Ready\"\x7d"

/-- Reply published when a message has neither `action` nor `settings`. -/
def wrongArgReply : String :=
  "\x7b\"status\":\"Received message did not contain action or settings\"\x7d"

/-- Reply published after the `"on"` action is dispatched. -/
def onReply : String := "\x7b\"status\":\"Led 1: On\"\x7d"

/-- Reply published after the `"off"` action is dispatched. -/
def offReply : String := "\x7b\"status\":\"Led 1: Off\"\x7d"

/-- Reply published when a current change arrives while the tracked state is on. -/
def rejectReply : String :=
  "\x7b\"status\":\"Turn off the LED before changing the current\"\x7d"

/-- Reply published when the current-setting call raises. -/
def currentErrorReply : String :=
  "\x7b\"status\":\"Error while setting the current, power cycle your machine\"\x7d"

/-- Confirmation reply of a successful current change (f-string interpolation). -/
def confirmReply (current : Nat) : String :=
  "\x7b\"status\":\"Current set to " ++ toString current ++ "mA\"\x7d"

/-- Reply published at teardown. -/
def deadReply : String := "\x7b\"status\":\"Dead\"\x7d"

/-- Abstract rendering of the message payload interpolated into the
settings-not-understood f-string.  The exact repr text Python would print
is irrelevant to every property below; only its position inside the reply
string matters. -/
def reprMessage (m : Message) : String :=
  let a := match m.action with
    | some a => "action=" ++ a
    | none => ""
  let c := match m.settings with
    | some st =>
      match st.current with
      | some c => "settings.current=" ++ toString c
      | none => "settings=?"
    | none => ""
  "\x7b" ++ a ++ ";" ++ c ++ "\x7d"

/-- Reply published when `settings` carries no recognised sub-key. -/
def notUnderstoodReply (m : Message) : String :=
  "\x7b\"status\":\"Settings request not understood in " ++ reprMessage m ++ "\"\x7d"

/-- The `settings.current` dispatch calls `self.led.set_torch_current(current)`.
The class `i2c_led` defines no attribute named `set_torch_current` — its only
current-setting method is `set_flash_current` — so Python attribute lookup
raises `AttributeError` before any bus transaction is attempted: the call
always fails and emits no events. -/
def set_torch_current_call (_current : Nat) : Except String (List Event) :=
  Except.error "AttributeError: i2c_led object has no attribute set_torch_current"

/-- Method `led_off(self, led)`: logs only, performs no operation. -/
def led_off : List Event := []

/-- Method `led_on(self, led)`: calls `self.led.output_to_led1()` and nothing else. -/
def led_on : List Event := i2c_led.output_to_led1

/-- The `action` part of the dispatch in `treat_message`: `"on"` runs
`led_on` and publishes `onReply`; `"off"` runs `led_off` and publishes
`offReply`; any other value only logs a warning. -/
def treat_action (m : Message) : List Event :=
  match m.action with
  | none => []
  | some a =>
    if a = "on" then led_on ++ [Event.publish "status/light" onReply]
    else if a = "off" then led_off ++ [Event.publish "status/light" offReply]
    else []

/-- The `settings` part of the dispatch in `treat_message`.  When
`settings.current` is present: if `self.led.get_state()` the change is
rejected with `rejectReply`; otherwise the `set_torch_current` call is
attempted inside `try`, a raise is answered with `currentErrorReply`, and
success would be answered with the confirmation reply.  When `settings`
has no `current` key, the not-understood reply is published. -/
def treat_settings (s : i2c_led.LedState) (m : Message) : List Event :=
  match m.settings with
  | none => []
  | some st =>
    match st.current with
    | some current =>
      if i2c_led.get_state s then
        [Event.publish "status/light" rejectReply]
      else
        match set_torch_current_call current with
        | Except.error _ => [Event.publish "status/light" currentErrorReply]
        | Except.ok evs => evs ++ [Event.publish "status/light" (confirmReply current)]
    | none => [Event.publish "status/light" (notUnderstoodReply m)]

/-- Method `treat_message`: with no pending message nothing happens; a message
with neither `action` nor `settings` is answered with `wrongArgReply` and
dispatch is skipped; otherwise the `action` part runs first and then the
`settings` part.  Returns the (unchanged) driver state and the emitted
event trace. -/
def treat_message (s : i2c_led.LedState) (msg : Option Message) :
    i2c_led.LedState × List Event :=
  match msg with
  | none => (s, [])
  | some m =>
    if m.action.isNone && m.settings.isNone then
      (s, [Event.publish "status/light" wrongArgReply])
    else
      (s, treat_action m ++ treat_settings s m)

/-- Teardown after the stop event is observed: `set_flash_current(1)`,
one `get_flags` read (the byte delivered by the bus is
`shutdownFlagsByte`), `RPi.GPIO.cleanup()`, the final `deadReply`
publication, and the MQTT client shutdown. -/
def shutdown (s : i2c_led.LedState) (shutdownFlagsByte : Nat) :
    i2c_led.LedState × List Event :=
  let fc := i2c_led.set_flash_current 1
  let gf := i2c_led.get_flags s shutdownFlagsByte
  (gf.1,
    fc.2 ++ gf.2.2 ++
      [Event.gpioCleanup, Event.publish "status/light" deadReply,
        Event.clientShutdown])

/-- The polling loop of `run`: the stop event is checked at the head of
each iteration; `iters` is the number of iterations executed before the
check observes the stop event, and `msgs k` is the message pending at
iteration `k` (the `time.sleep(0.1)` between iterations is omitted). -/
def loop : Nat → (Nat → Option Message) → i2c_led.LedState →
    i2c_led.LedState × List Event
  | 0, _, s => (s, [])
  | n + 1, msgs, s =>
    let step := treat_message s (msgs 0)
    let rest := loop n (fun k => msgs (k + 1)) step.1
    (rest.1, step.2 ++ rest.2)

/-- Method `run`: after the MQTT connection (external) the `readyReply` is
published, the polling loop runs until the stop event is observed, and
the teardown sequence follows. -/
def run (iters : Nat) (msgs : Nat → Option Message) (s : i2c_led.LedState)
    (shutdownFlagsByte : Nat) : i2c_led.LedState × List Event :=
  let l := loop iters msgs s
  let sd := shutdown l.1 shutdownFlagsByte
  (sd.1, Event.publish "status/light" readyReply :: (l.2 ++ sd.2))

/-- Driver state reached after a sequence of `treat_message` steps. -/
def processAll (s : i2c_led.LedState) : List (Option Message) → i2c_led.LedState
  | [] => s
  | m :: ms => processAll (treat_message s m).1 ms

end LightProcess

/-! ### Helper lemmas -/

theorem string_data_append (s t : String) : (s ++ t).data = s.data ++ t.data := by
  cases s; cases t; rfl

theorem notUnderstoodReply_take12 (m : LightProcess.Message) :
    (LightProcess.notUnderstoodReply m).data.take 12 =
      ("\x7b\"status\":\"S" : String).data := by
  rw [LightProcess.notUnderstoodReply, string_data_append, string_data_append,
    List.append_assoc, List.take_append_of_le_length (by decide)]
  decide

theorem notUnderstoodReply_ne_dead (m : LightProcess.Message) :
    LightProcess.notUnderstoodReply m ≠ LightProcess.deadReply := by
  intro h
  have h2 : (LightProcess.notUnderstoodReply m).data.take 12 =
      LightProcess.deadReply.data.take 12 := by rw [h]
  rw [notUnderstoodReply_take12] at h2
  exact absurd h2 (by decide)

theorem notUnderstoodReply_ne_reject (m : LightProcess.Message) :
    LightProcess.notUnderstoodReply m ≠ LightProcess.rejectReply := by
  intro h
  have h2 : (LightProcess.notUnderstoodReply m).data.take 12 =
      LightProcess.rejectReply.data.take 12 := by rw [h]
  rw [notUnderstoodReply_take12] at h2
  exact absurd h2 (by decide)

theorem mem_treat_message_publish (s : i2c_led.LedState)
    (msg : Option LightProcess.Message) (p : String)
    (h : Event.publish "status/light" p ∈ (LightProcess.treat_message s msg).2) :
    p = LightProcess.wrongArgReply ∨ p = LightProcess.onReply ∨
    p = LightProcess.offReply ∨
    (p = LightProcess.rejectReply ∧ i2c_led.get_state s = true) ∨
    p = LightProcess.currentErrorReply ∨
    ∃ m, msg = some m ∧ p = LightProcess.notUnderstoodReply m := by
  cases msg with
  | none => simp [LightProcess.treat_message] at h
  | some m =>
    obtain ⟨action, settings⟩ := m
    simp only [LightProcess.treat_message] at h
    split at h
    · simp only [List.mem_singleton, Event.publish.injEq] at h
      exact Or.inl h.2
    · rw [List.mem_append] at h
      rcases h with h | h
      · rcases action with _ | a
        · simp [LightProcess.treat_action] at h
        · simp only [LightProcess.treat_action] at h
          split_ifs at h with h1 h2
          · simp only [LightProcess.led_on, i2c_led.output_to_led1,
              List.cons_append, List.nil_append, List.mem_cons,
              List.mem_singleton, List.not_mem_nil, or_false] at h
            rcases h with h | h
            · exact Event.noConfusion h
            · simp only [Event.publish.injEq] at h
              exact Or.inr (Or.inl h.2)
          · simp only [LightProcess.led_off, List.nil_append,
              List.mem_singleton, Event.publish.injEq] at h
            exact Or.inr (Or.inr (Or.inl h.2))
          · simp at h
      · rcases settings with _ | ⟨_ | c⟩
        · simp [LightProcess.treat_settings] at h
        · simp only [LightProcess.treat_settings, List.mem_singleton,
            Event.publish.injEq] at h
          exact Or.inr (Or.inr (Or.inr (Or.inr (Or.inr ⟨_, rfl, h.2⟩))))
        · simp only [LightProcess.treat_settings] at h
          split_ifs at h with hOn
          · simp only [List.mem_singleton, Event.publish.injEq] at h
            exact Or.inr (Or.inr (Or.inr (Or.inl ⟨h.2, hOn⟩)))
          · simp only [LightProcess.set_torch_current_call,
              List.mem_singleton, Event.publish.injEq] at h
            exact Or.inr (Or.inr (Or.inr (Or.inr (Or.inl h.2))))

theorem publish_dead_notMem_treat (s : i2c_led.LedState)
    (msg : Option LightProcess.Message) :
    Event.publish "status/light" LightProcess.deadReply ∉
      (LightProcess.treat_message s msg).2 := by
  intro h
  rcases mem_treat_message_publish s msg _ h with h | h | h | ⟨h, _⟩ | h | ⟨m, _, h⟩
  · exact absurd h (by decide)
  · exact absurd h (by decide)
  · exact absurd h (by decide)
  · exact absurd h (by decide)
  · exact absurd h (by decide)
  · exact notUnderstoodReply_ne_dead m h.symm

theorem publish_reject_notMem_treat (s : i2c_led.LedState)
    (msg : Option LightProcess.Message) (hs : i2c_led.get_state s = false) :
    Event.publish "status/light" LightProcess.rejectReply ∉
      (LightProcess.treat_message s msg).2 := by
  intro h
  rcases mem_treat_message_publish s msg _ h with h | h | h | ⟨_, hOn⟩ | h | ⟨m, _, h⟩
  · exact absurd h (by decide)
  · exact absurd h (by decide)
  · exact absurd h (by decide)
  · rw [hs] at hOn; exact Bool.false_ne_true hOn
  · exact absurd h (by decide)
  · exact notUnderstoodReply_ne_reject m h.symm

theorem treat_message_fst (s : i2c_led.LedState)
    (msg : Option LightProcess.Message) :
    (LightProcess.treat_message s msg).1 = s := by
  cases msg with
  | none => rfl
  | some m =>
    simp only [LightProcess.treat_message]
    split <;> rfl

theorem processAll_eq (msgs : List (Option LightProcess.Message))
    (s : i2c_led.LedState) : LightProcess.processAll s msgs = s := by
  induction msgs generalizing s with
  | nil => rfl
  | cons m ms ih =>
    simp only [LightProcess.processAll]
    rw [treat_message_fst]
    exact ih s

theorem publish_dead_notMem_loop (iters : Nat)
    (msgs : Nat → Option LightProcess.Message) (s : i2c_led.LedState) :
    Event.publish "status/light" LightProcess.deadReply ∉
      (LightProcess.loop iters msgs s).2 := by
  induction iters generalizing msgs s with
  | zero => simp [LightProcess.loop]
  | succ n ih =>
    simp only [LightProcess.loop, List.mem_append]
    rintro (h | h)
    · exact publish_dead_notMem_treat _ _ h
    · exact ih _ _ h

theorem flagBits : ∀ b : Nat, b < 256 →
    (decide (b &&& 1 ≠ 0) = b.testBit 0 ∧ decide (b &&& 2 ≠ 0) = b.testBit 1 ∧
     decide (b &&& 4 ≠ 0) = b.testBit 2 ∧ decide (b &&& 8 ≠ 0) = b.testBit 3 ∧
     decide (b &&& 32 ≠ 0) = b.testBit 5 ∧ decide (b &&& 64 ≠ 0) = b.testBit 6) := by
  decide

theorem flagMask : ∀ b : Nat, b < 256 →
    (b &&& 1 = b &&& 0b01101111 &&& 1 ∧ b &&& 2 = b &&& 0b01101111 &&& 2 ∧
     b &&& 4 = b &&& 0b01101111 &&& 4 ∧ b &&& 8 = b &&& 0b01101111 &&& 8 ∧
     b &&& 32 = b &&& 0b01101111 &&& 32 ∧ b &&& 64 = b &&& 0b01101111 &&& 64) := by
  decide

/-- C3: for every flags byte value 0..255, `get_flags` decodes it by fixed
bit positions — bit0 = flash-timeout, bit1 = UVLO, bit2 = thermal-shutdown,
bit3 = thermal-scale, bit5 = VLED-short, bit6 = IVFM — and the values of
bits 4 and 7 have no effect on any decoded flag field. -/
theorem get_flags_decodes_fixed_bits (s : i2c_led.LedState) (b : Nat)
    (hb : b < 256) :
    ((i2c_led.get_flags s b).1.flash_timeout = b.testBit 0 ∧
     (i2c_led.get_flags s b).1.UVLO = b.testBit 1 ∧
     (i2c_led.get_flags s b).1.thermal_shutdown = b.testBit 2 ∧
     (i2c_led.get_flags s b).1.thermal_scale = b.testBit 3 ∧
     (i2c_led.get_flags s b).1.VLED_short = b.testBit 5 ∧
     (i2c_led.get_flags s b).1.IVFM = b.testBit 6) ∧
    ((i2c_led.get_flags s b).1.flash_timeout =
       (i2c_led.get_flags s (b &&& 0b01101111)).1.flash_timeout ∧
     (i2c_led.get_flags s b).1.UVLO =
       (i2c_led.get_flags s (b &&& 0b01101111)).1.UVLO ∧
     (i2c_led.get_flags s b).1.thermal_shutdown =
       (i2c_led.get_flags s (b &&& 0b01101111)).1.thermal_shutdown ∧
     (i2c_led.get_flags s b).1.thermal_scale =
       (i2c_led.get_flags s (b &&& 0b01101111)).1.thermal_scale ∧
     (i2c_led.get_flags s b).1.VLED_short =
       (i2c_led.get_flags s (b &&& 0b01101111)).1.VLED_short ∧
     (i2c_led.get_flags s b).1.IVFM =
       (i2c_led.get_flags s (b &&& 0b01101111)).1.IVFM) := by
  obtain ⟨m1, m2, m4, m8, m32, m64⟩ := flagMask b hb
  constructor
  · simpa only [i2c_led.get_flags] using flagBits b hb
  · simp only [i2c_led.get_flags]
    exact ⟨by rw [← m1], by rw [← m2], by rw [← m4], by rw [← m8],
      by rw [← m32], by rw [← m64]⟩

/-- Witness for the flag-decoding theorem at byte 255 (bits 4 and 7 set). -/
theorem get_flags_decodes_fixed_bits_witness :
    (255 : Nat) < 256 ∧
    (((i2c_led.get_flags i2c_led.initState 255).1.flash_timeout =
        (255 : Nat).testBit 0 ∧
      (i2c_led.get_flags i2c_led.initState 255).1.UVLO = (255 : Nat).testBit 1 ∧
      (i2c_led.get_flags i2c_led.initState 255).1.thermal_shutdown =
        (255 : Nat).testBit 2 ∧
      (i2c_led.get_flags i2c_led.initState 255).1.thermal_scale =
        (255 : Nat).testBit 3 ∧
      (i2c_led.get_flags i2c_led.initState 255).1.VLED_short =
        (255 : Nat).testBit 5 ∧
      (i2c_led.get_flags i2c_led.initState 255).1.IVFM =
        (255 : Nat).testBit 6) ∧
     ((i2c_led.get_flags i2c_led.initState 255).1.flash_timeout =
        (i2c_led.get_flags i2c_led.initState (255 &&& 0b01101111)).1.flash_timeout ∧
      (i2c_led.get_flags i2c_led.initState 255).1.UVLO =
        (i2c_led.get_flags i2c_led.initState (255 &&& 0b01101111)).1.UVLO ∧
      (i2c_led.get_flags i2c_led.initState 255).1.thermal_shutdown =
        (i2c_led.get_flags i2c_led.initState (255 &&& 0b01101111)).1.thermal_shutdown ∧
      (i2c_led.get_flags i2c_led.initState 255).1.thermal_scale =
        (i2c_led.get_flags i2c_led.initState (255 &&& 0b01101111)).1.thermal_scale ∧
      (i2c_led.get_flags i2c_led.initState 255).1.VLED_short =
        (i2c_led.get_flags i2c_led.initState (255 &&& 0b01101111)).1.VLED_short ∧
      (i2c_led.get_flags i2c_led.initState 255).1.IVFM =
        (i2c_led.get_flags i2c_led.initState (255 &&& 0b01101111)).1.IVFM)) :=
  ⟨by decide, get_flags_decodes_fixed_bits i2c_led.initState 255 (by decide)⟩

theorem set_flash_value_eq (m : Nat) (hm : 88 * m < i2c_led.coeffDen) :
    m * i2c_led.coeffNum / i2c_led.coeffDen = m * 17 / 200 := by
  have hN : 200 * i2c_led.coeffNum = 17 * i2c_led.coeffDen + 88 := by decide
  have hqr : 200 * (m * 17 / 200) + m * 17 % 200 = m * 17 := Nat.div_add_mod _ _
  have hr : m * 17 % 200 < 200 := Nat.mod_lt _ (by norm_num)
  have h1 : 200 * (m * 17 / 200) ≤ 17 * m := by omega
  have lo : (m * 17 / 200) * i2c_led.coeffDen ≤ m * i2c_led.coeffNum := by
    have h200 : 200 * ((m * 17 / 200) * i2c_led.coeffDen) ≤
        200 * (m * i2c_led.coeffNum) := by
      calc 200 * ((m * 17 / 200) * i2c_led.coeffDen)
          = (200 * (m * 17 / 200)) * i2c_led.coeffDen := by ring
        _ ≤ (17 * m) * i2c_led.coeffDen := Nat.mul_le_mul_right _ h1
        _ = 17 * i2c_led.coeffDen * m := by ring
        _ ≤ 17 * i2c_led.coeffDen * m + 88 * m := Nat.le_add_right _ _
        _ = m * (17 * i2c_led.coeffDen + 88) := by ring
        _ = m * (200 * i2c_led.coeffNum) := by rw [hN]
        _ = 200 * (m * i2c_led.coeffNum) := by ring
    exact Nat.le_of_mul_le_mul_left h200 (by norm_num)
  have hi : m * i2c_led.coeffNum < (m * 17 / 200 + 1) * i2c_led.coeffDen := by
    have h200 : 200 * (m * i2c_led.coeffNum) <
        200 * ((m * 17 / 200 + 1) * i2c_led.coeffDen) := by
      calc 200 * (m * i2c_led.coeffNum) = m * (200 * i2c_led.coeffNum) := by ring
        _ = m * (17 * i2c_led.coeffDen + 88) := by rw [hN]
        _ = (17 * m) * i2c_led.coeffDen + 88 * m := by ring
        _ = (200 * (m * 17 / 200) + m * 17 % 200) * i2c_led.coeffDen + 88 * m := by
              rw [hqr]; ring_nf
        _ < (200 * (m * 17 / 200) + m * 17 % 200) * i2c_led.coeffDen +
              i2c_led.coeffDen := Nat.add_lt_add_left hm _
        _ = (200 * (m * 17 / 200) + m * 17 % 200 + 1) * i2c_led.coeffDen := by ring
        _ ≤ (200 * (m * 17 / 200) + 200) * i2c_led.coeffDen :=
              Nat.mul_le_mul_right _ (by omega)
        _ = 200 * ((m * 17 / 200 + 1) * i2c_led.coeffDen) := by ring
    exact Nat.lt_of_mul_lt_mul_left h200
  exact Nat.div_eq_of_lt_le lo hi

theorem flash_floor_rat_eq (m : Nat) : ⌊(m : ℚ) * (17 / 200)⌋₊ = m * 17 / 200 := by
  have h : (m : ℚ) * (17 / 200) = ((m * 17 : ℕ) : ℚ) / ((200 : ℕ) : ℚ) := by
    push_cast; ring
  rw [h, Nat.floor_div_eq_div]

/-- C4: for every milliamp input in [11, 1500], `set_flash_current` computes
the register value as the exact mathematical floor of milliamps times
17/200 and writes exactly that value to the flash register; input 0 yields
register value 0 and does not error. -/
theorem set_flash_current_floor_mapping :
    (∀ m : Nat, 11 ≤ m → m ≤ 1500 →
      (i2c_led.set_flash_current m).1 = m * 17 / 200 ∧
      (i2c_led.set_flash_current m).1 = ⌊(m : ℚ) * (17 / 200)⌋₊ ∧
      (i2c_led.set_flash_current m).2 =
        [Event.i2cWrite i2c_led.Register.flash.toNat (m * 17 / 200)]) ∧
    (i2c_led.set_flash_current 0).1 = 0 ∧
    (i2c_led.set_flash_current 0).2 =
      [Event.i2cWrite i2c_led.Register.flash.toNat 0] := by
  refine ⟨?_, rfl, rfl⟩
  intro m h11 h1500
  have h88 : 88 * m < i2c_led.coeffDen := by
    unfold i2c_led.coeffDen
    omega
  have hval : m * i2c_led.coeffNum / i2c_led.coeffDen = m * 17 / 200 :=
    set_flash_value_eq m h88
  refine ⟨hval, hval.trans (flash_floor_rat_eq m).symm, ?_⟩
  simp only [i2c_led.set_flash_current, hval]

/-- Witness for the current-mapping theorem at 20 mA (register value 1). -/
theorem set_flash_current_floor_mapping_witness :
    (11 ≤ 20 ∧ 20 ≤ 1500) ∧
    ((i2c_led.set_flash_current 20).1 = 20 * 17 / 200 ∧
     (i2c_led.set_flash_current 20).1 = ⌊(20 : ℚ) * (17 / 200)⌋₊ ∧
     (i2c_led.set_flash_current 20).2 =
       [Event.i2cWrite i2c_led.Register.flash.toNat (20 * 17 / 200)]) :=
  ⟨⟨by decide, by decide⟩,
    set_flash_current_floor_mapping.1 20 (by decide) (by decide)⟩

theorem treat_message_events (s : i2c_led.LedState)
    (msg : Option LightProcess.Message) (e : Event)
    (h : e ∈ (LightProcess.treat_message s msg).2) :
    (∃ hi, e = Event.gpioOutput i2c_led.LED_selectPin hi) ∨
    ∃ t p, e = Event.publish t p := by
  cases msg with
  | none => simp [LightProcess.treat_message] at h
  | some m =>
    obtain ⟨action, settings⟩ := m
    simp only [LightProcess.treat_message] at h
    split at h
    · rw [List.mem_singleton] at h
      exact Or.inr ⟨_, _, h⟩
    · rw [List.mem_append] at h
      rcases h with h | h
      · rcases action with _ | a
        · simp [LightProcess.treat_action] at h
        · simp only [LightProcess.treat_action] at h
          split_ifs at h with h1 h2
          · simp only [LightProcess.led_on, i2c_led.output_to_led1,
              List.cons_append, List.nil_append, List.mem_cons,
              List.mem_singleton, List.not_mem_nil, or_false] at h
            rcases h with h | h
            · exact Or.inl ⟨_, h⟩
            · exact Or.inr ⟨_, _, h⟩
          · simp only [LightProcess.led_off, List.nil_append,
              List.mem_singleton] at h
            exact Or.inr ⟨_, _, h⟩
          · simp at h
      · rcases settings with _ | ⟨_ | c⟩
        · simp [LightProcess.treat_settings] at h
        · rw [LightProcess.treat_settings, List.mem_singleton] at h
          exact Or.inr ⟨_, _, h⟩
        · simp only [LightProcess.treat_settings] at h
          split_ifs at h with hOn
          · rw [List.mem_singleton] at h
            exact Or.inr ⟨_, _, h⟩
          · simp only [LightProcess.set_torch_current_call,
              List.mem_singleton] at h
            exact Or.inr ⟨_, _, h⟩

theorem no_bus_event_in_treat_message (s : i2c_led.LedState)
    (msg : Option LightProcess.Message) :
    (∀ r d, Event.i2cWrite r d ∉ (LightProcess.treat_message s msg).2) ∧
    (∀ r, Event.i2cRead r ∉ (LightProcess.treat_message s msg).2) := by
  constructor
  · intro r d h
    rcases treat_message_events s msg _ h with ⟨hi, he⟩ | ⟨t, p, he⟩ <;>
      exact Event.noConfusion he
  · intro r h
    rcases treat_message_events s msg _ h with ⟨hi, he⟩ | ⟨t, p, he⟩ <;>
      exact Event.noConfusion he

/-- C5: while the tracked light state is on, a `settings.current` message is
rejected: the settings dispatch publishes exactly the fixed rejection reply,
a pure settings message produces that reply as its entire trace, and no chip
register transaction occurs anywhere in the dispatch. -/
theorem current_rejected_while_on (s : i2c_led.LedState)
    (m : LightProcess.Message) (c : Nat)
    (hOn : i2c_led.get_state s = true)
    (hc : m.settings = some ⟨some c⟩) :
    LightProcess.treat_settings s m =
      [Event.publish "status/light" LightProcess.rejectReply] ∧
    (m.action = none →
      LightProcess.treat_message s (some m) =
        (s, [Event.publish "status/light" LightProcess.rejectReply])) ∧
    (∀ r d, Event.i2cWrite r d ∉ (LightProcess.treat_message s (some m)).2) ∧
    (∀ r, Event.i2cRead r ∉ (LightProcess.treat_message s (some m)).2) := by
  obtain ⟨action, settings⟩ := m
  simp only at hc
  subst hc
  refine ⟨?_, ?_, (no_bus_event_in_treat_message s _).1,
    (no_bus_event_in_treat_message s _).2⟩
  · simp [LightProcess.treat_settings, hOn]
  · intro ha
    simp only at ha
    subst ha
    simp [LightProcess.treat_message, LightProcess.treat_action,
      LightProcess.treat_settings, hOn]

/-- Witness for the reject-while-on theorem with the light on and 20 mA. -/
theorem current_rejected_while_on_witness :
    i2c_led.get_state ⟨false, false, false, false, false, false, true⟩ = true ∧
    LightProcess.treat_settings ⟨false, false, false, false, false, false, true⟩
        ⟨none, some ⟨some 20⟩⟩ =
      [Event.publish "status/light" LightProcess.rejectReply] :=
  ⟨rfl,
    (current_rejected_while_on ⟨false, false, false, false, false, false, true⟩
      ⟨none, some ⟨some 20⟩⟩ 20 rfl rfl).1⟩

/-- C6: a message with neither an `action` field nor a `settings` field is
answered with exactly one rejection reply and nothing else — in particular
zero chip operations — and dispatch is not entered. -/
theorem missing_fields_rejected (s : i2c_led.LedState)
    (m : LightProcess.Message) (ha : m.action = none) (hs : m.settings = none) :
    LightProcess.treat_message s (some m) =
      (s, [Event.publish "status/light" LightProcess.wrongArgReply]) := by
  obtain ⟨action, settings⟩ := m
  simp only at ha hs
  subst ha
  subst hs
  rfl

/-- Witness for the missing-fields rejection theorem on the empty message. -/
theorem missing_fields_rejected_witness :
    LightProcess.treat_message i2c_led.initState (some ⟨none, none⟩) =
      (i2c_led.initState,
        [Event.publish "status/light" LightProcess.wrongArgReply]) :=
  missing_fields_rejected i2c_led.initState ⟨none, none⟩ rfl rfl

/-- C1 (evaluation of the code against the claim): with the tracked light
state off, the message `settings.current = 20` does not produce a flash
register write and a confirmation reply — the dispatch calls the
nonexistent driver method `set_torch_current`, the raised `AttributeError`
is swallowed by the bare `except`, and the published trace is exactly the
bus-error reply with zero chip operations.  The correctly mapped register
value the claim expects, `set_flash_current 20`, would have been 1. -/
theorem setCurrent_off_publishes_error_not_confirmation :
    LightProcess.treat_message i2c_led.initState
        (some ⟨none, some ⟨some 20⟩⟩) =
      (i2c_led.initState,
        [Event.publish "status/light" LightProcess.currentErrorReply]) ∧
    (i2c_led.set_flash_current 20).1 = 1 :=
  ⟨rfl, rfl⟩

/-- C2 (evaluation of the code against the claim): dispatching action `"on"`
invokes the channel select exactly once and publishes the on-reply but
leaves the tracked on/off flag `false` — `led_on` never assigns it — and
dispatching `"off"` publishes the off-reply with the state again unchanged. -/
theorem action_on_leaves_tracked_state_off :
    (LightProcess.treat_message i2c_led.initState (some ⟨some "on", none⟩) =
      (i2c_led.initState,
        [Event.gpioOutput i2c_led.LED_selectPin true,
         Event.publish "status/light" LightProcess.onReply])) ∧
    ((LightProcess.treat_message i2c_led.initState
        (some ⟨some "on", none⟩)).1.on = false) ∧
    (LightProcess.treat_message i2c_led.initState (some ⟨some "off", none⟩) =
      (i2c_led.initState,
        [Event.publish "status/light" LightProcess.offReply])) :=
  ⟨rfl, rfl, rfl⟩

/-- C7: once the stop signal is observed, the teardown performs, in this
exact order, one flash-current write with the minimum value (register
value 0), one flags read, the GPIO release, and the single final Dead
publication (followed only by the MQTT client shutdown); every event of
the polling loop — in particular those of a command processed in the last
iteration — precedes the teardown, and no Dead reply is published before
it. -/
theorem shutdown_sequence_in_order (iters : Nat)
    (msgs : Nat → Option LightProcess.Message) (s : i2c_led.LedState)
    (b : Nat) :
    (LightProcess.run iters msgs s b).2 =
      (Event.publish "status/light" LightProcess.readyReply ::
        (LightProcess.loop iters msgs s).2) ++
      [Event.i2cWrite i2c_led.Register.flash.toNat 0,
       Event.i2cRead i2c_led.Register.flags.toNat,
       Event.gpioCleanup,
       Event.publish "status/light" LightProcess.deadReply,
       Event.clientShutdown] ∧
    Event.publish "status/light" LightProcess.deadReply ∉
      Event.publish "status/light" LightProcess.readyReply ::
        (LightProcess.loop iters msgs s).2 := by
  constructor
  · rfl
  · intro h
    rcases List.mem_cons.mp h with h | h
    · simp only [Event.publish.injEq] at h
      exact absurd h.2 (by decide)
    · exact publish_dead_notMem_loop iters msgs s h

/-- Witness for the shutdown-sequence theorem: two loop iterations with a
pending on-message, then stop. -/
theorem shutdown_sequence_in_order_witness :
    (LightProcess.run 2 (fun _ => some ⟨some "on", none⟩)
        i2c_led.initState 0).2 =
      (Event.publish "status/light" LightProcess.readyReply ::
        (LightProcess.loop 2 (fun _ => some ⟨some "on", none⟩)
          i2c_led.initState).2) ++
      [Event.i2cWrite i2c_led.Register.flash.toNat 0,
       Event.i2cRead i2c_led.Register.flags.toNat,
       Event.gpioCleanup,
       Event.publish "status/light" LightProcess.deadReply,
       Event.clientShutdown] :=
  (shutdown_sequence_in_order 2 (fun _ => some ⟨some "on", none⟩)
    i2c_led.initState 0).1

/-- C8: every failure raised during a steady-state current-set dispatch is
absorbed inside `treat_message` and converted into the fixed power-cycle
error reply, and the polling loop always runs to completion and reaches
the teardown publications — no message terminates it early. -/
theorem current_set_failures_absorbed :
    (∀ (s : i2c_led.LedState) (m : LightProcess.Message) (c : Nat),
      i2c_led.get_state s = false →
      m.settings = some ⟨some c⟩ →
      LightProcess.treat_settings s m =
        [Event.publish "status/light" LightProcess.currentErrorReply]) ∧
    (∀ (iters : Nat) (msgs : Nat → Option LightProcess.Message)
        (s : i2c_led.LedState) (b : Nat),
      ∃ pre,
        (LightProcess.run iters msgs s b).2 =
          pre ++ [Event.publish "status/light" LightProcess.deadReply,
                  Event.clientShutdown]) := by
  constructor
  · intro s m c hs hc
    obtain ⟨action, settings⟩ := m
    simp only at hc
    subst hc
    simp [LightProcess.treat_settings, hs, LightProcess.set_torch_current_call]
  · intro iters msgs s b
    refine ⟨Event.publish "status/light" LightProcess.readyReply ::
      ((LightProcess.loop iters msgs s).2 ++
        [Event.i2cWrite i2c_led.Register.flash.toNat 0,
         Event.i2cRead i2c_led.Register.flags.toNat, Event.gpioCleanup]), ?_⟩
    show Event.publish "status/light" LightProcess.readyReply ::
        ((LightProcess.loop iters msgs s).2 ++ _) = _
    rw [List.cons_append, List.append_assoc]
    rfl

/-- Witness for the failure-absorption theorem with the light off and 20 mA. -/
theorem current_set_failures_absorbed_witness :
    i2c_led.get_state i2c_led.initState = false ∧
    LightProcess.treat_settings i2c_led.initState ⟨none, some ⟨some 20⟩⟩ =
      [Event.publish "status/light" LightProcess.currentErrorReply] :=
  ⟨rfl,
    current_set_failures_absorbed.1 i2c_led.initState
      ⟨none, some ⟨some 20⟩⟩ 20 rfl rfl⟩

/-- C9: the tracked on/off flag starts out false at construction and no
message-processing step ever changes the driver state — in particular the
`"on"` dispatch path does not mutate it — so `get_state` returns false
after every sequence of `treat_message` steps, and the
reject-current-while-lit reply is unreachable through the message
interface. -/
theorem on_flag_never_set :
    (∀ (s : i2c_led.LedState) (msg : Option LightProcess.Message),
      (LightProcess.treat_message s msg).1 = s) ∧
    i2c_led.initState.on = false ∧
    ∀ msgs : List (Option LightProcess.Message),
      i2c_led.get_state (LightProcess.processAll i2c_led.initState msgs) =
        false ∧
      ∀ msg, Event.publish "status/light" LightProcess.rejectReply ∉
        (LightProcess.treat_message
          (LightProcess.processAll i2c_led.initState msgs) msg).2 := by
  refine ⟨treat_message_fst, rfl, ?_⟩
  intro msgs
  rw [processAll_eq]
  exact ⟨rfl, fun msg => publish_reject_notMem_treat _ _ rfl⟩

/-- Witness for the on-flag invariant after two on-messages and a
current-change attempt. -/
theorem on_flag_never_set_witness :
    i2c_led.get_state (LightProcess.processAll i2c_led.initState
      [some ⟨some "on", none⟩, some ⟨some "on", some ⟨some 20⟩⟩]) = false :=
  (on_flag_never_set.2.2
    [some ⟨some "on", none⟩, some ⟨some "on", some ⟨some 20⟩⟩]).1

/-- C10: the teardown call `set_flash_current(1)` computes register value 0
— `int(1 * 0.085) = 0` — so the minimum-1-mA shutdown convention writes the
same zero byte to the flash register as an explicit `set_flash_current(0)`,
and the teardown trace starts with exactly that zero write. -/
theorem shutdown_minimum_current_writes_zero :
    (i2c_led.set_flash_current 1).1 = 0 ∧
    (i2c_led.set_flash_current 1).2 =
      [Event.i2cWrite i2c_led.Register.flash.toNat 0] ∧
    (i2c_led.set_flash_current 1).2 = (i2c_led.set_flash_current 0).2 ∧
    ∀ (s : i2c_led.LedState) (b : Nat),
      ∃ rest, (LightProcess.shutdown s b).2 =
        Event.i2cWrite i2c_led.Register.flash.toNat 0 :: rest :=
  ⟨rfl, rfl, rfl, fun _ _ => ⟨_, rfl⟩⟩
